import Mathlib

/-!
Shallow embedding of `src/lambda/index.js` (a single-file AWS Lambda storefront
backend) and proofs about its request dispatch, authentication and order
lifecycle behaviour.

Modelling conventions:
* JavaScript values are modelled by `Value`; objects are insertion-ordered
  association lists of string keys (`Obj`).  Reading an absent property yields
  `Value.undefined`, as in JS.
* The single DynamoDB table `EcommerceData` is modelled by `Db`: a list of
  records plus a `failing` flag used to inject store-operation failures
  (rejected promises of the AWS SDK are modelled as `Except.error`).
* Signed JWTs are modelled symbolically by the constructor `Value.jwt`
  carrying the expiry (in whole seconds, as `jsonwebtoken` computes it), the
  payload and the signing secret; signature verification is secret equality.
* `Date.now()` (milliseconds) is passed in explicitly as `nowMs` / `clockMs`;
  the code's `Math.floor(Date.now() / 1000)` becomes Nat division by 1000.
* `process.env.SECRET` is an `Option String` (`none` = unset).
* `nanoid()` is passed in explicitly as a fresh-id parameter.
-/

/-- A JavaScript value as used by the Lambda source: strings, numbers,
booleans, `undefined`, objects (ordered key/value lists) and arrays.  The
`jwt` constructor models the opaque signed token string produced by
`jwt.sign`: it records the expiry second, the payload and the signing
secret. -/
inductive Value where
  | str (s : String)
  | num (n : Int)
  | bool (b : Bool)
  | undefined
  | obj (fields : List (String × Value))
  | arr (elems : List Value)
  | jwt (exp : Nat) (data : Value) (secret : String)

/-- A JavaScript object: insertion-ordered association list. -/
def Obj : Type := List (String × Value)

instance : Membership (String × Value) Obj := inferInstanceAs (Membership _ (List _))

/-- Property read `o[k]`: the first binding for `k`, `undefined` if absent. -/
def getF (o : Obj) (k : String) : Value :=
  match (List.find? (fun p => p.1 == k) o) with
  | some p => p.2
  | none => Value.undefined

/-- Property write `o[k] = v`: drops any previous binding for `k` and appends
the new one (a canonical-order model of JS object update; claims only inspect
objects through `getF`). -/
def setF (o : Obj) (k : String) (v : Value) : Obj :=
  (List.filter (fun p => !(p.1 == k)) o) ++ [(k, v)]

/-- Object spread `{ ...o, ...data }`: copy `data`'s properties onto `o` in
order, later bindings overriding earlier ones — exactly JS spread
semantics. -/
def spreadObj (o : Obj) (data : Obj) : Obj :=
  List.foldl (fun acc p => setF acc p.1 p.2) o data

/-- JS strict equality `===` restricted to the values that flow through this
program: structural on primitives, `true` for `undefined === undefined`, and
`false` between any two objects/arrays (in every comparison the source
performs, the two sides are separately materialised values, hence distinct
references). -/
def jsStrictEq : Value → Value → Bool
  | Value.str a, Value.str b => a == b
  | Value.num a, Value.num b => a == b
  | Value.bool a, Value.bool b => a == b
  | Value.undefined, Value.undefined => true
  | _, _ => false

/-- Property read on an arbitrary value, `undefined` when not an object. -/
def jsGet : Value → String → Value
  | Value.obj fs, k => getF fs k
  | _, _ => Value.undefined

/-- Coerce a value to an object's field list (handlers destructure `data`
as an object; every claim quantifies over object payloads). -/
def asObj : Value → Obj
  | Value.obj fs => fs
  | _ => []

/-- JS `x || d` on the optional environment string: the default is taken when
the variable is unset or empty (both falsy). -/
def jsOrDefault : Option String → String → String
  | none, d => d
  | some s, d => if s = "" then d else s

section BasicLemmas

theorem getF_setF_self (o : Obj) (k : String) (v : Value) :
    getF (setF o k v) k = v := by
  induction o with
  | nil => simp [getF, setF, List.find?]
  | cons p t ih =>
    by_cases h : p.1 == k
    · simpa [setF, List.filter, h] using ih
    · simp only [setF, List.filter, h] at ih ⊢
      simp [getF, List.find?, h] at ih ⊢
      exact ih

theorem getF_setF_ne (o : Obj) (k k' : String) (v : Value) (h : k' ≠ k) :
    getF (setF o k v) k' = getF o k' := by
  have hk : (k == k') = false := by
    simp only [beq_eq_false_iff_ne]
    exact fun hkk => h hkk.symm
  induction o with
  | nil => simp [getF, setF, List.find?, hk]
  | cons p t ih =>
    by_cases hp : p.1 == k
    · have hp' : (p.1 == k') = false := by
        have : p.1 = k := by exact eq_of_beq hp
        simp [this, hk]
      simp only [setF, List.filter, hp] at ih ⊢
      simp [getF, List.find?, hp'] at ih ⊢
      exact ih
    · simp only [setF, List.filter, hp] at ih ⊢
      by_cases hq : p.1 == k'
      · simp [getF, List.find?, hq]
      · simp [getF, List.find?, hq] at ih ⊢
        exact ih

theorem getF_spreadObj_not_mem (data : Obj) (o : Obj) (k : String)
    (h : k ∉ List.map Prod.fst data) :
    getF (spreadObj o data) k = getF o k := by
  induction data generalizing o with
  | nil => rfl
  | cons p t ih =>
    simp only [List.map, List.mem_cons] at h
    push_neg at h
    have h1 : k ≠ p.1 := h.1
    have h2 : k ∉ List.map Prod.fst t := h.2
    calc getF (spreadObj (setF o p.1 p.2) t) k
        = getF (setF o p.1 p.2) k := ih (setF o p.1 p.2) h2
      _ = getF o k := getF_setF_ne o p.1 k p.2 h1

theorem setF_setF_self (o : Obj) (k : String) (v : Value) :
    setF (setF o k v) k v = setF o k v := by
  simp [setF, List.filter_append, List.filter_filter]

end BasicLemmas

/-! ## Token service (`createToken` / `checkToken`, index.js lines 29-53) -/

/-- `const TABLE_NAME = "EcommerceData"` (index.js line 24). -/
def TABLE_NAME : String := "EcommerceData"

/-- index.js lines 29-38:
`jwt.sign({ exp: Math.floor(Date.now() / 1000) + 86400, data: info },
process.env.SECRET || "SECRET")`, wrapped as `{ token }`.  `nowMs` is
`Date.now()` in milliseconds; Nat division by 1000 is the `Math.floor`. -/
def createToken (env : Option String) (nowMs : Nat) (info : Value) : Value :=
  Value.obj [("token", Value.jwt (nowMs / 1000 + 86400) info (jsOrDefault env "SECRET"))]

/-- index.js lines 46-53: `jwt.verify(token, process.env.SECRET)` inside a
try/catch that returns `{}` on any failure.  `jsonwebtoken` throws when the
secret is unset or empty, when the token is not a well-formed signed JWT,
when the signature does not match the secret, and when the clock (whole
seconds, `Math.floor(Date.now() / 1000)`) has reached the `exp` claim; on
success it returns the decoded payload, from which the source destructures
`data`. -/
def checkToken (env : Option String) (clockMs : Nat) (token : Value) : Value :=
  match env with
  | none => Value.obj []
  | some secret =>
    if secret = "" then Value.obj []
    else
      match token with
      | Value.jwt exp data tokenSecret =>
        if tokenSecret = secret then
          if exp ≤ clockMs / 1000 then Value.obj [] else data
        else Value.obj []
      | _ => Value.obj []

/-! ## Store adapter: the DynamoDB DocumentClient over table `EcommerceData` -/

/-- Failure of a DocumentClient call: `serviceError` stands for any rejected
promise from the service (network, throttling, ...) — injected via
`Db.failing`; `validationException` is the SDK-side rejection of malformed
call parameters (e.g. a missing required `Key`). -/
inductive DbError where
  | serviceError
  | validationException
deriving DecidableEq

/-- The single DynamoDB table: its records, plus a fault-injection flag making
every service call reject (modelling store-operation failures for the error
handling claims). -/
structure Db where
  failing : Bool
  table : List Obj

/-- The key schema: partition key `context`, range key `id`.  A record matches
a requested key when both attributes are (strictly) equal. -/
def sameKey (r : Obj) (ctx : String) (idv : Value) : Bool :=
  jsStrictEq (getF r "context") (Value.str ctx) && jsStrictEq (getF r "id") idv

/-- `ddb.get({ Key: { context, id } })`: the matching record, if any. -/
def ddbGet (db : Db) (ctx : String) (idv : Value) : Except DbError (Option Obj) :=
  if db.failing then Except.error DbError.serviceError
  else Except.ok (List.find? (fun r => sameKey r ctx idv) db.table)

/-- `PutItem` table semantics: full upsert — replace the record with the same
(context, id) key, or append the new record. -/
def putTable (t : List Obj) (item : Obj) : List Obj :=
  (List.filter (fun r => !(jsStrictEq (getF r "context") (getF item "context")
      && jsStrictEq (getF r "id") (getF item "id"))) t) ++ [item]

/-- `ddb.put({ Item: item })`. -/
def ddbPut (db : Db) (item : Obj) : Except DbError Db :=
  if db.failing then Except.error DbError.serviceError
  else Except.ok { db with table := putTable db.table item }

/-- `UpdateItem` table semantics for `set field = value` with no
`ConditionExpression`: DynamoDB updates the matching record if one exists,
and otherwise silently creates a new record holding only the key attributes
and the updated field (the documented upsert behaviour the spec calls a
"placeholder"). -/
def updateTable (t : List Obj) (ctx : String) (idv : Value) (field : String) (v : Value) :
    List Obj :=
  if List.any t (fun r => sameKey r ctx idv) then
    List.map (fun r => if sameKey r ctx idv then setF r field v else r) t
  else
    t ++ [setF (setF (setF [] "context" (Value.str ctx)) "id" idv) field v]

/-- `ddb.update({ Key, UpdateExpression: "set field = :v", ... })`. -/
def ddbUpdate (db : Db) (ctx : String) (idv : Value) (field : String) (v : Value) :
    Except DbError Db :=
  if db.failing then Except.error DbError.serviceError
  else Except.ok { db with table := updateTable db.table ctx idv field v }

/-- `ddb.query({ KeyConditionExpression: "context = :i", ... })`: all records
of one context, in table order (no ordering is relied upon). -/
def ddbQuery (db : Db) (ctx : String) : Except DbError (List Obj) :=
  if db.failing then Except.error DbError.serviceError
  else Except.ok (List.filter (fun r => jsStrictEq (getF r "context") (Value.str ctx)) db.table)

/-- The parameter object of a `ddb.delete` call, as the source builds it.
`Key` is the SDK's required key parameter; `context` and `id` are plain
top-level members (which the SDK ignores for addressing). -/
structure DeleteParams where
  TableName : String
  Key : Option (String × Value) := none
  context : Option String := none
  id : Option Value := none

/-- `ddb.delete(params)`: the aws-sdk rejects the call with a validation
error when the required `Key` parameter is absent; otherwise it deletes the
keyed record (deleting an absent key is a no-op). -/
def ddbDelete (db : Db) (params : DeleteParams) : Except DbError Db :=
  match params.Key with
  | none => Except.error DbError.validationException
  | some (ctx, idv) =>
    if db.failing then Except.error DbError.serviceError
    else Except.ok { db with table := List.filter (fun r => !(sameKey r ctx idv)) db.table }

/-! ## Action handlers (index.js lines 94-230, 266-302) -/

/-- index.js lines 94-107: fetch the user record keyed
`{ context: "user", id: data.userId }`; on `response.Item &&
response.Item.password === data.password`, return
`createToken(response.Item.info)`; otherwise fall through to `undefined`. -/
def login (env : Option String) (nowMs : Nat) (db : Db) (data : Obj) :
    Except DbError Value := do
  let item? ← ddbGet db "user" (getF data "userId")
  match item? with
  | some item =>
    if jsStrictEq (getF item "password") (getF data "password") then
      pure (createToken env nowMs (getF item "info"))
    else
      pure Value.undefined
  | none => pure Value.undefined

/-- index.js line 116: the order object
`{ context: "order", id: nanoid(), ...data, orderStatus: "OPEN" }`.
JS spread: properties of `data` override the two defaults written before it,
and the trailing `orderStatus` overrides anything `data` supplied. -/
def orderRecord (nanoId : String) (data : Obj) : Obj :=
  setF (spreadObj (setF (setF [] "context" (Value.str "order")) "id" (Value.str nanoId)) data)
    "orderStatus" (Value.str "OPEN")

/-- index.js lines 115-124: put the order record, return `{ success: true }`. -/
def createOrder (db : Db) (nanoId : String) (data : Obj) :
    Except DbError (Value × Db) := do
  let db' ← ddbPut db (orderRecord nanoId data)
  pure (Value.obj [("success", Value.bool true)], db')

/-- index.js lines 132-147: `set orderStatus = "CLOSED"` on key
`{ context: "order", id: data.id }`, return `{ success: true }`. -/
def completeOrder (db : Db) (data : Obj) : Except DbError (Value × Db) := do
  let db' ← ddbUpdate db "order" (getF data "id") "orderStatus" (Value.str "CLOSED")
  pure (Value.obj [("success", Value.bool true)], db')

/-- index.js lines 149-164: `set orderStatus = "OPEN"` on key
`{ context: "order", id: data.id }`, return `{ success: true }`. -/
def reopenOrder (db : Db) (data : Obj) : Except DbError (Value × Db) := do
  let db' ← ddbUpdate db "order" (getF data "id") "orderStatus" (Value.str "OPEN")
  pure (Value.obj [("success", Value.bool true)], db')

/-- index.js lines 171-182: query context `"item"`, return `response.Items`. -/
def getItemList (db : Db) (_data : Obj) : Except DbError Value := do
  let items ← ddbQuery db "item"
  pure (Value.arr (List.map Value.obj items))

/-- index.js lines 189-200: query context `"order"`, return `response.Items`. -/
def getOrderList (db : Db) : Except DbError Value := do
  let items ← ddbQuery db "order"
  pure (Value.arr (List.map Value.obj items))

/-- index.js line 208: the item object `{ context: "item", id: nanoid(), ...data }`. -/
def itemRecord (nanoId : String) (data : Obj) : Obj :=
  spreadObj (setF (setF [] "context" (Value.str "item")) "id" (Value.str nanoId)) data

/-- index.js lines 207-215: put the item record; no declared return value
(`undefined`). -/
def addItem (db : Db) (nanoId : String) (data : Obj) :
    Except DbError (Value × Db) := do
  let db' ← ddbPut db (itemRecord nanoId data)
  pure (Value.undefined, db')

/-- index.js lines 222-230: `ddb.delete({ TableName: TABLE_NAME, context:
"item", id: data.id })`.  Note the source places `context` and `id` at the
top level of the parameter object and never builds the required `Key`
member, so the call carries `Key := none`. -/
def removeItem (db : Db) (data : Obj) : Except DbError (Value × Db) := do
  let db' ← ddbDelete db
    { TableName := TABLE_NAME, context := some "item", id := some (getF data "id") }
  pure (Value.undefined, db')

/-- index.js lines 266-302: the fixed seed data of `init`. -/
def seedRecords : List Obj :=
  [ [("context", Value.str "item"), ("id", Value.str "1"),
     ("image", Value.str "images/product01.jpg"), ("price", Value.num 10),
     ("title", Value.str "Tank Top"), ("description", Value.str "")],
    [("context", Value.str "item"), ("id", Value.str "2"),
     ("image", Value.str "images/product02.jpg"), ("price", Value.num 10),
     ("title", Value.str "Polo-Shirt"), ("description", Value.str "")],
    [("context", Value.str "item"), ("id", Value.str "3"),
     ("image", Value.str "images/product03.jpg"), ("price", Value.num 10),
     ("title", Value.str "T-Shirt"), ("description", Value.str "")],
    [("context", Value.str "user"), ("id", Value.str "admin"),
     ("password", Value.str "cac28395540089e505a68311833c2cb5a92f84f4")],
    [("context", Value.str "order"), ("id", Value.str "1"),
     ("orderStatus", Value.str "OPEN"), ("price", Value.num 10),
     ("title", Value.str "Tank Top"), ("buyerName", Value.str "Mark Zucherberg"),
     ("buyerAddress", Value.str "1 Hacker Way, Menlo Park, 94025 CA, United States of America.")],
    [("context", Value.str "order"), ("id", Value.str "2"),
     ("orderStatus", Value.str "OPEN"), ("price", Value.num 10),
     ("title", Value.str "Polo-Shirt"), ("buyerName", Value.str "Sundar Pitchai"),
     ("buyerAddress", Value.str "1600 Amphitheatre Parkway, Mountain View, CA 94043")],
    [("context", Value.str "order"), ("id", Value.str "3"),
     ("orderStatus", Value.str "OPEN"), ("price", Value.num 10),
     ("title", Value.str "T-Shirt"), ("buyerName", Value.str "Andy Jassy"),
     ("buyerAddress", Value.str "410 Terry Ave N, Seattle, Washington 98109, US")] ]

/-- index.js lines 266-302: put every seed record and wait for all
(`Promise.all`); the seed keys are pairwise distinct, so the concurrent
writes commute and are modelled as a left-to-right fold.  Returns
`undefined`. -/
def init (db : Db) : Except DbError (Value × Db) := do
  let db' ← List.foldlM (fun acc r => ddbPut acc r) db seedRecords
  pure (Value.undefined, db')

/-! ## Request normalizer, response envelope and dispatcher
(index.js lines 61-86, 238-264) -/

/-- The inbound API-Gateway proxy event, restricted to the members the source
reads.  `body` holds the already-parsed JSON body (`none` models an absent
body, for which the source substitutes `{}`). -/
structure LambdaEvent where
  body : Option Obj := none
  queryStringParameters : Option Obj := none
  path : Value := Value.undefined
  httpMethod : Value := Value.undefined
  sourceIp : Value := Value.undefined
  headers : Obj := []

/-- The canonical request record of index.js lines 61-70. -/
structure RequestDetails where
  body : Obj
  query : Obj
  path : Value
  method : Value
  source : Value
  user : Value
  apiKey : Value
  userAgent : Value

/-- index.js lines 61-70: `extractEventDetails`. -/
def extractEventDetails (env : Option String) (nowMs : Nat) (event : LambdaEvent) :
    RequestDetails :=
  { body := event.body.getD []
    query := event.queryStringParameters.getD []
    path := event.path
    method := event.httpMethod
    source := event.sourceIp
    user := checkToken env nowMs (getF event.headers "Authorization")
    apiKey := getF event.headers "x-api-key"
    userAgent := getF event.headers "User-Agent" }

/-- The three permissive CORS headers of index.js lines 80-84. -/
def corsHeaders : List (String × String) :=
  [("Access-Control-Allow-Headers", "*"),
   ("Access-Control-Allow-Origin", "*"),
   ("Access-Control-Allow-Methods", "*")]

/-- The HTTP-shaped response of index.js lines 78-86.  `body` is
`JSON.stringify` of the awaited handler result; `none` models the JS
`undefined` that `JSON.stringify` yields on `undefined` input. -/
structure LambdaResponse where
  statusCode : Nat
  headers : List (String × String)
  body : Option String

/-- Minimal JSON string escaping (quote and backslash; no claim inspects
escaped text). -/
def escapeChar (c : Char) : String :=
  if c = '"' then "\\\"" else if c = '\\' then "\\\\" else String.singleton c

/-- A JSON string literal. -/
def jsonQuote (s : String) : String :=
  "\"" ++ String.foldl (fun acc c => acc ++ escapeChar c) "" s ++ "\""

mutual

/-- `JSON.stringify`: `undefined` serializes to nothing (`none`); the
serialized text of a signed token is an opaque string whose exact spelling no
property of this development inspects, printed here from its parts. -/
def stringifyV : Value → Option String
  | Value.str s => some (jsonQuote s)
  | Value.num n => some (toString n)
  | Value.bool b => some (cond b "true" "false")
  | Value.undefined => none
  | Value.obj fs => some ("\x7b" ++ String.intercalate "," (stringifyFields fs) ++ "\x7d")
  | Value.arr es => some ("[" ++ String.intercalate "," (stringifyElems es) ++ "]")
  | Value.jwt e _ _ => some (jsonQuote ("signed-token-exp-" ++ toString e))

/-- Object members: `undefined`-valued properties are dropped by
`JSON.stringify`. -/
def stringifyFields : List (String × Value) → List String
  | [] => []
  | (k, v) :: rest =>
    match stringifyV v with
    | none => stringifyFields rest
    | some s => (jsonQuote k ++ ":" ++ s) :: stringifyFields rest

/-- Array elements: `undefined` serializes to `null` inside arrays. -/
def stringifyElems : List Value → List String
  | [] => []
  | v :: rest =>
    match stringifyV v with
    | none => "null" :: stringifyElems rest
    | some s => s :: stringifyElems rest

end

/-- index.js lines 78-86: `respond` — always status 200, the CORS headers,
and the stringified (awaited) result. -/
def respond (v : Value) : LambdaResponse :=
  { statusCode := 200, headers := corsHeaders, body := stringifyV v }

/-- `respond(handlerPromise)` for a state-passing handler: `respond` awaits
the handler's promise inside itself, so a rejected handler promise rejects
the whole `respond` call — `Except.map` propagates the error unchanged, with
no catch anywhere. -/
def respondDb (r : Except DbError (Value × Db)) : Except DbError (LambdaResponse × Db) :=
  Except.map (fun p => (respond p.1, p.2)) r

/-- The nine action names of the dispatcher switch (index.js lines 242-261). -/
def recognizedActions : List String :=
  ["INIT", "LOGIN", "ADD_ORDER", "ORDER_LIST", "COMPLETE_ORDER",
   "REOPEN_ORDER", "ITEM_LIST", "ADD_ITEM", "REMOVE_ITEM"]

/-- index.js lines 238-264: `exports.handler`.  Normalizes the event, reads
`action` and `data` from the body, switches on the action (JS `switch` is
strict equality against each string literal), and falls through to
`respond({})` for anything unmatched.  Read-only handlers leave the table
unchanged. -/
def handler (env : Option String) (nowMs : Nat) (nanoId : String) (db : Db)
    (event : LambdaEvent) : Except DbError (LambdaResponse × Db) :=
  let ev := extractEventDetails env nowMs event
  let action := getF ev.body "action"
  let data := asObj (getF ev.body "data")
  if jsStrictEq action (Value.str "INIT") then respondDb (init db)
  else if jsStrictEq action (Value.str "LOGIN") then
    respondDb (Except.map (fun v => (v, db)) (login env nowMs db data))
  else if jsStrictEq action (Value.str "ADD_ORDER") then
    respondDb (createOrder db nanoId data)
  else if jsStrictEq action (Value.str "ORDER_LIST") then
    respondDb (Except.map (fun v => (v, db)) (getOrderList db))
  else if jsStrictEq action (Value.str "COMPLETE_ORDER") then
    respondDb (completeOrder db data)
  else if jsStrictEq action (Value.str "REOPEN_ORDER") then
    respondDb (reopenOrder db data)
  else if jsStrictEq action (Value.str "ITEM_LIST") then
    respondDb (Except.map (fun v => (v, db)) (getItemList db data))
  else if jsStrictEq action (Value.str "ADD_ITEM") then
    respondDb (addItem db nanoId data)
  else if jsStrictEq action (Value.str "REMOVE_ITEM") then
    respondDb (removeItem db data)
  else respondDb (Except.ok (Value.obj [], db))

/-! ## Derived lemmas about the embedding -/

/-- Setting `orderStatus` never changes a record's key attributes. -/
theorem sameKey_setF_orderStatus (r : Obj) (ctx : String) (idv v : Value) :
    sameKey (setF r "orderStatus" v) ctx idv = sameKey r ctx idv := by
  unfold sameKey
  rw [getF_setF_ne r "orderStatus" "context" v (by decide),
      getF_setF_ne r "orderStatus" "id" v (by decide)]

/-- Round trip of the token service under a configured secret: verification
succeeds with the embedded payload exactly until the expiry second is
reached. -/
theorem checkToken_createToken (s : String) (nowMs clockMs : Nat) (payload : Value)
    (hs : s ≠ "") :
    checkToken (some s) clockMs (jsGet (createToken (some s) nowMs payload) "token")
      = if nowMs / 1000 + 86400 ≤ clockMs / 1000 then Value.obj [] else payload := by
  have h1 : jsGet (createToken (some s) nowMs payload) "token"
      = Value.jwt (nowMs / 1000 + 86400) payload (jsOrDefault (some s) "SECRET") := rfl
  rw [h1]
  simp [checkToken, jsOrDefault, hs]

/-! ## The claims -/

/-- Claim C2: for every ADD_ORDER input payload, including payloads that
themselves carry an `orderStatus` field, the order record written to the
store has `orderStatus = "OPEN"` (the trailing member of the object literal
overrides anything the spread brought in), and the handler returns
`{ success: true }` with the record upserted into the table. -/
theorem createOrder_forces_orderStatus_OPEN (db : Db) (nanoId : String) (data : Obj)
    (hdb : db.failing = false) :
    getF (orderRecord nanoId data) "orderStatus" = Value.str "OPEN" ∧
    createOrder db nanoId data = Except.ok (Value.obj [("success", Value.bool true)],
      { db with table := putTable db.table (orderRecord nanoId data) }) := by
  constructor
  · exact getF_setF_self _ _ _
  · simp [createOrder, ddbPut, hdb, Bind.bind, Except.bind, pure, Except.pure]

/-- Witness for C2 at a payload that tries to smuggle in
`orderStatus: "CLOSED"`. -/
theorem createOrder_forces_orderStatus_OPEN_witness :
    getF (orderRecord "n1" [("orderStatus", Value.str "CLOSED")]) "orderStatus"
      = Value.str "OPEN" ∧
    createOrder ⟨false, []⟩ "n1" [("orderStatus", Value.str "CLOSED")]
      = Except.ok (Value.obj [("success", Value.bool true)],
        { Db.mk false [] with
          table := putTable [] (orderRecord "n1" [("orderStatus", Value.str "CLOSED")]) }) :=
  createOrder_forces_orderStatus_OPEN ⟨false, []⟩ "n1"
    [("orderStatus", Value.str "CLOSED")] rfl

/-- Claim C3: REOPEN_ORDER on an id that keys no existing order does NOT
fail with a not-found condition; the unconditional DynamoDB update
fabricates a phantom record holding only the key attributes and
`orderStatus`, and the handler still reports `{ success: true }`.  Evaluated
at the failing input: empty table, `REOPEN_ORDER { id: "ghost" }`. -/
theorem reopenOrder_fabricates_phantom_record :
    reopenOrder ⟨false, []⟩ [("id", Value.str "ghost")]
      = Except.ok (Value.obj [("success", Value.bool true)],
          ⟨false, [[("context", Value.str "order"), ("id", Value.str "ghost"),
                    ("orderStatus", Value.str "OPEN")]]⟩) := rfl

/-- Claim C4: when a handler's store operation fails, the dispatcher does
NOT catch the failure and return a `{ success: false, ... }` envelope — the
rejection propagates through `respond`'s `await` and the invocation
terminates with an uncaught error, for any environment, clock, fresh id and
table contents. -/
theorem handler_store_failure_uncaught (env : Option String) (nowMs : Nat)
    (nanoId : String) (t : List Obj) :
    handler env nowMs nanoId ⟨true, t⟩
      { body := some [("action", Value.str "LOGIN"),
                      ("data", Value.obj [("userId", Value.str "admin")])] }
      = Except.error DbError.serviceError := rfl

/-- The concrete item payload used to exercise the REMOVE_ITEM bug. -/
def demoItemData : Obj := [("title", Value.str "Tank Top")]

/-- Claim C6: `removeItem` never deletes anything — its `ddb.delete` call
puts `context` and `id` at the top level of the parameter object instead of
inside the required `Key` member, so the SDK rejects every call.  After
ADD_ITEM stores a record, REMOVE_ITEM on its id fails with a validation
error and a subsequent ITEM_LIST still contains the record. -/
theorem removeItem_never_deletes :
    (∀ (db : Db) (data : Obj), removeItem db data = Except.error DbError.validationException) ∧
    addItem ⟨false, []⟩ "n1" demoItemData
      = Except.ok (Value.undefined, ⟨false, [itemRecord "n1" demoItemData]⟩) ∧
    removeItem ⟨false, [itemRecord "n1" demoItemData]⟩ [("id", Value.str "n1")]
      = Except.error DbError.validationException ∧
    getItemList ⟨false, [itemRecord "n1" demoItemData]⟩ []
      = Except.ok (Value.arr [Value.obj (itemRecord "n1" demoItemData)]) :=
  ⟨fun _ _ => rfl, rfl, rfl, rfl⟩

/-- Counterexample to claim C5 as stated: an ADD_ORDER payload carrying an
`id` field overrides the freshly generated id — with fresh id `"fresh1"` and
payload `{ id: "supplied" }`, the stored record's id is `"supplied"`, not
`"fresh1"`. -/
theorem createOrder_supplied_id_counterexample :
    createOrder ⟨false, []⟩ "fresh1" [("id", Value.str "supplied")]
      = Except.ok (Value.obj [("success", Value.bool true)],
          ⟨false, [[("context", Value.str "order"), ("id", Value.str "supplied"),
                    ("orderStatus", Value.str "OPEN")]]⟩) ∧
    getF (orderRecord "fresh1" [("id", Value.str "supplied")]) "id" = Value.str "supplied" ∧
    Value.str "supplied" ≠ Value.str "fresh1" := by
  refine ⟨rfl, rfl, fun h => ?_⟩
  injection h with h'
  exact absurd h' (by decide)

/-- Claim C5 as amended: for ADD_ORDER payloads that do not themselves carry
an `id` or `context` field, the record written to the store has the freshly
generated id and context `"order"` (and forced `orderStatus = "OPEN"`);
payload-supplied `id`/`context` fields override the generated values via the
object spread. -/
theorem createOrder_fresh_id_amended (db : Db) (nanoId : String) (data : Obj)
    (hid : "id" ∉ List.map Prod.fst data) (hctx : "context" ∉ List.map Prod.fst data)
    (hdb : db.failing = false) :
    getF (orderRecord nanoId data) "id" = Value.str nanoId ∧
    getF (orderRecord nanoId data) "context" = Value.str "order" ∧
    getF (orderRecord nanoId data) "orderStatus" = Value.str "OPEN" ∧
    createOrder db nanoId data = Except.ok (Value.obj [("success", Value.bool true)],
      { db with table := putTable db.table (orderRecord nanoId data) }) := by
  refine ⟨?_, ?_, getF_setF_self _ _ _, ?_⟩
  · unfold orderRecord
    rw [getF_setF_ne _ "orderStatus" "id" _ (by decide),
        getF_spreadObj_not_mem data _ "id" hid,
        getF_setF_self]
  · unfold orderRecord
    rw [getF_setF_ne _ "orderStatus" "context" _ (by decide),
        getF_spreadObj_not_mem data _ "context" hctx,
        getF_setF_ne _ "id" "context" _ (by decide),
        getF_setF_self]
  · simp [createOrder, ddbPut, hdb, Bind.bind, Except.bind, pure, Except.pure]

/-- Witness for the amended C5 at a payload without `id`/`context`. -/
theorem createOrder_fresh_id_amended_witness :
    getF (orderRecord "fresh1" [("title", Value.str "T-Shirt")]) "id" = Value.str "fresh1" ∧
    getF (orderRecord "fresh1" [("title", Value.str "T-Shirt")]) "context"
      = Value.str "order" ∧
    getF (orderRecord "fresh1" [("title", Value.str "T-Shirt")]) "orderStatus"
      = Value.str "OPEN" ∧
    createOrder ⟨false, []⟩ "fresh1" [("title", Value.str "T-Shirt")]
      = Except.ok (Value.obj [("success", Value.bool true)],
        { Db.mk false [] with
          table := putTable [] (orderRecord "fresh1" [("title", Value.str "T-Shirt")]) }) :=
  createOrder_fresh_id_amended ⟨false, []⟩ "fresh1" [("title", Value.str "T-Shirt")]
    (by decide) (by decide) rfl

/-- Claim C10: with the process-wide SECRET unset, `createToken` signs with
the fixed fallback key `"SECRET"` while `checkToken` verifies against the
unset value, so the round trip yields the empty identity for every payload
and every pair of clocks: no token issued under the fallback ever
verifies. -/
theorem fallbackSecret_tokens_never_verify (info : Value) (nowMs clockMs : Nat) :
    createToken none nowMs info
      = Value.obj [("token", Value.jwt (nowMs / 1000 + 86400) info "SECRET")] ∧
    checkToken none clockMs (jsGet (createToken none nowMs info) "token")
      = Value.obj [] :=
  ⟨rfl, rfl⟩

/-- Claim C1: with the signing secret configured, for every stored user
record `u`: a LOGIN request whose `userId` keys `u` and whose `password` is
strictly equal to `u`'s stored password yields `{ token }`, and verifying
that token (before expiry) yields exactly `u`'s stored `info` as payload; a
password mismatch or an unknown `userId` yields no token (`undefined`). -/
theorem login_token_roundtrip (s : String) (nowMs clockMs : Nat) (db : Db)
    (data u : Obj) (hs : s ≠ "") (hclock : clockMs / 1000 < nowMs / 1000 + 86400) :
    (ddbGet db "user" (getF data "userId") = Except.ok (some u) →
      ((jsStrictEq (getF u "password") (getF data "password") = true →
          login (some s) nowMs db data
            = Except.ok (createToken (some s) nowMs (getF u "info")) ∧
          checkToken (some s) clockMs
              (jsGet (createToken (some s) nowMs (getF u "info")) "token")
            = getF u "info") ∧
       (jsStrictEq (getF u "password") (getF data "password") = false →
          login (some s) nowMs db data = Except.ok Value.undefined))) ∧
    (ddbGet db "user" (getF data "userId") = Except.ok none →
      login (some s) nowMs db data = Except.ok Value.undefined) := by
  refine ⟨fun hget => ⟨fun hpw => ⟨?_, ?_⟩, fun hpw => ?_⟩, fun hget => ?_⟩
  · simp [login, hget, hpw, Bind.bind, Except.bind, pure, Except.pure]
  · rw [checkToken_createToken s nowMs clockMs _ hs, if_neg (not_le.mpr hclock)]
  · simp [login, hget, hpw, Bind.bind, Except.bind, pure, Except.pure]
  · simp [login, hget, Bind.bind, Except.bind, pure, Except.pure]

/-- The seeded admin user record, with a profile `info` field added. -/
def demoUser : Obj :=
  [("context", Value.str "user"), ("id", Value.str "admin"),
   ("password", Value.str "cac28395540089e505a68311833c2cb5a92f84f4"),
   ("info", Value.obj [("name", Value.str "Admin")])]

/-- Witness for C1: the admin user logs in with the stored password and the
issued token verifies back to the stored profile info. -/
theorem login_token_roundtrip_witness :
    login (some "topsecret") 1000 ⟨false, [demoUser]⟩
        [("userId", Value.str "admin"),
         ("password", Value.str "cac28395540089e505a68311833c2cb5a92f84f4")]
      = Except.ok (createToken (some "topsecret") 1000 (getF demoUser "info")) ∧
    checkToken (some "topsecret") 2000
        (jsGet (createToken (some "topsecret") 1000 (getF demoUser "info")) "token")
      = getF demoUser "info" :=
  ((login_token_roundtrip "topsecret" 1000 2000 ⟨false, [demoUser]⟩
      [("userId", Value.str "admin"),
       ("password", Value.str "cac28395540089e505a68311833c2cb5a92f84f4")]
      demoUser (by decide) (by decide)).1 rfl).1 rfl

/-- Counterexample to claim C7 as stated: issuance and check instants are
milliseconds (`Date.now()`), but the expiry is computed and checked in whole
seconds.  A token issued at T = 1500 ms expires at second 86401, so the
check at 86401499 ms — strictly before T + 24h = 86401500 ms — already
yields the empty identity. -/
theorem token_expiry_ms_counterexample :
    (86401499 : Nat) < 1500 + 86400000 ∧
    checkToken (some "k") 86401499
        (jsGet (createToken (some "k") 1500 (Value.str "p")) "token")
      = Value.obj [] :=
  ⟨by decide, rfl⟩

/-- Claim C7 as amended: with the signing secret configured, a token issued
at millisecond instant T verifies (yielding its payload) at exactly those
check instants whose whole-second clock value lies strictly before the
expiry second `T/1000 + 86400`; in particular every check at or after
T + 24h (in milliseconds) yields the empty identity. -/
theorem token_expiry_second_granularity (s : String) (nowMs clockMs : Nat)
    (payload : Value) (hs : s ≠ "") :
    (clockMs / 1000 < nowMs / 1000 + 86400 →
      checkToken (some s) clockMs (jsGet (createToken (some s) nowMs payload) "token")
        = payload) ∧
    (nowMs + 86400000 ≤ clockMs →
      checkToken (some s) clockMs (jsGet (createToken (some s) nowMs payload) "token")
        = Value.obj []) := by
  constructor
  · intro hclock
    rw [checkToken_createToken s nowMs clockMs payload hs, if_neg (not_le.mpr hclock)]
  · intro hclock
    have hdivs : nowMs / 1000 + 86400 = (nowMs + 86400000) / 1000 := by
      have := Nat.add_mul_div_right nowMs 86400 (show 0 < 1000 by norm_num)
      norm_num at this
      omega
    have hle : nowMs / 1000 + 86400 ≤ clockMs / 1000 := by
      rw [hdivs]
      exact Nat.div_le_div_right hclock
    rw [checkToken_createToken s nowMs clockMs payload hs, if_pos hle]

/-- Witness for the amended C7: a token issued at 0 ms verifies at 999 ms
and is rejected at exactly 24h. -/
theorem token_expiry_second_granularity_witness :
    checkToken (some "k") 999 (jsGet (createToken (some "k") 0 (Value.str "p")) "token")
      = Value.str "p" ∧
    checkToken (some "k") 86400000
        (jsGet (createToken (some "k") 0 (Value.str "p")) "token")
      = Value.obj [] :=
  ⟨(token_expiry_second_granularity "k" 0 999 (Value.str "p") (by decide)).1 (by decide),
   (token_expiry_second_granularity "k" 0 86400000 (Value.str "p") (by decide)).2 (by decide)⟩

/-- When the keyed record exists, the update is the pointwise map that sets
the field on every record matching the key. -/
theorem updateTable_exists_map (t : List Obj) (ctx : String) (idv : Value)
    (field : String) (v : Value)
    (hex : List.any t (fun r => sameKey r ctx idv) = true) :
    updateTable t ctx idv field v
      = List.map (fun r => if sameKey r ctx idv then setF r field v else r) t := by
  simp [updateTable, hex]

/-- Setting `orderStatus` preserves which records match the key. -/
theorem updateTable_orderStatus_any (t : List Obj) (ctx : String) (idv v : Value)
    (hex : List.any t (fun r => sameKey r ctx idv) = true) :
    List.any (updateTable t ctx idv "orderStatus" v) (fun r => sameKey r ctx idv) = true := by
  rw [updateTable_exists_map t ctx idv "orderStatus" v hex, List.any_map]
  have hpt : ∀ r : Obj,
      sameKey (if sameKey r ctx idv then setF r "orderStatus" v else r) ctx idv
        = sameKey r ctx idv := by
    intro r
    by_cases h : sameKey r ctx idv = true
    · rw [if_pos h, sameKey_setF_orderStatus]
    · rw [if_neg h]
  have hcomp : ((fun r => sameKey r ctx idv) ∘
        (fun r => if sameKey r ctx idv then setF r "orderStatus" v else r))
      = (fun r : Obj => sameKey r ctx idv) := funext hpt
  rw [hcomp]
  exact hex

/-- Applying the same `orderStatus` update twice equals applying it once. -/
theorem updateTable_orderStatus_idem (t : List Obj) (ctx : String) (idv v : Value)
    (hex : List.any t (fun r => sameKey r ctx idv) = true) :
    updateTable (updateTable t ctx idv "orderStatus" v) ctx idv "orderStatus" v
      = updateTable t ctx idv "orderStatus" v := by
  rw [updateTable_exists_map _ _ _ _ _ (updateTable_orderStatus_any t ctx idv v hex),
      updateTable_exists_map t ctx idv "orderStatus" v hex, List.map_map]
  have hfun : ((fun r => if sameKey r ctx idv then setF r "orderStatus" v else r) ∘
        (fun r => if sameKey r ctx idv then setF r "orderStatus" v else r))
      = (fun r => if sameKey r ctx idv then setF r "orderStatus" v else r) := by
    funext r
    by_cases h : sameKey r ctx idv = true
    · simp only [Function.comp_apply, if_pos h, sameKey_setF_orderStatus, h, if_true,
        setF_setF_self]
    · simp only [Function.comp_apply, if_neg h]
  rw [hfun]

/-- After the update, every record matching the key carries the new
`orderStatus`. -/
theorem updateTable_orderStatus_closed (t : List Obj) (ctx : String) (idv v : Value)
    (hex : List.any t (fun r => sameKey r ctx idv) = true) :
    ∀ r ∈ updateTable t ctx idv "orderStatus" v,
      sameKey r ctx idv = true → getF r "orderStatus" = v := by
  rw [updateTable_exists_map t ctx idv "orderStatus" v hex]
  intro r hr hkey
  obtain ⟨r₀, _, rfl⟩ := List.mem_map.mp hr
  by_cases h : sameKey r₀ ctx idv = true
  · rw [if_pos h]
    exact getF_setF_self _ _ _
  · rw [if_neg h] at hkey ⊢
    exact absurd hkey h

/-- Claim C8: for every existing order id, COMPLETE_ORDER twice in
succession is idempotent: both invocations return `{ success: true }`
without error, the table after the second invocation is the table after the
first, and the keyed order's `orderStatus` is `"CLOSED"` after each
invocation. -/
theorem completeOrder_idempotent (db : Db) (data : Obj) (hf : db.failing = false)
    (hex : List.any db.table (fun r => sameKey r "order" (getF data "id")) = true) :
    completeOrder db data = Except.ok (Value.obj [("success", Value.bool true)],
      { db with table :=
          updateTable db.table "order" (getF data "id") "orderStatus" (Value.str "CLOSED") }) ∧
    completeOrder
        { db with table :=
            updateTable db.table "order" (getF data "id") "orderStatus" (Value.str "CLOSED") }
        data
      = Except.ok (Value.obj [("success", Value.bool true)],
        { db with table :=
            updateTable db.table "order" (getF data "id") "orderStatus" (Value.str "CLOSED") }) ∧
    (∀ r ∈ updateTable db.table "order" (getF data "id") "orderStatus" (Value.str "CLOSED"),
      sameKey r "order" (getF data "id") = true →
        getF r "orderStatus" = Value.str "CLOSED") := by
  refine ⟨?_, ?_, updateTable_orderStatus_closed _ _ _ _ hex⟩
  · simp [completeOrder, ddbUpdate, hf, Bind.bind, Except.bind, pure, Except.pure]
  · simp [completeOrder, ddbUpdate, hf, Bind.bind, Except.bind, pure, Except.pure,
      updateTable_orderStatus_idem _ _ _ _ hex]

/-- A one-order table for exercising the COMPLETE_ORDER claims. -/
def demoOrderDb : Db :=
  ⟨false, [[("context", Value.str "order"), ("id", Value.str "1"),
            ("orderStatus", Value.str "OPEN")]]⟩

/-- Witness for C8 on the demo order table. -/
theorem completeOrder_idempotent_witness :
    completeOrder demoOrderDb [("id", Value.str "1")]
      = Except.ok (Value.obj [("success", Value.bool true)],
        ⟨false, [[("context", Value.str "order"), ("id", Value.str "1"),
                  ("orderStatus", Value.str "CLOSED")]]⟩) :=
  (completeOrder_idempotent demoOrderDb [("id", Value.str "1")] rfl (by decide)).1

/-- Claim C9: a request whose action is none of the nine recognized names
gets the envelope with status 200, the permissive CORS headers and the
serialized empty object `"{}"` as body; the table is returned unchanged (the
conclusion holds for every table state — including a failing store — since
no store operation is performed). -/
theorem handler_unknown_action (env : Option String) (nowMs : Nat) (nanoId : String)
    (db : Db) (event : LambdaEvent)
    (h : List.all recognizedActions
        (fun a => !jsStrictEq (getF (event.body.getD []) "action") (Value.str a)) = true) :
    handler env nowMs nanoId db event
      = Except.ok ({ statusCode := 200, headers := corsHeaders, body := some "\x7b\x7d" }, db) := by
  simp only [recognizedActions, List.all_cons, List.all_nil, Bool.and_eq_true,
    Bool.not_eq_true'] at h
  obtain ⟨h1, h2, h3, h4, h5, h6, h7, h8, h9, -⟩ := h
  simp only [handler, extractEventDetails]
  simp only [h1, h2, h3, h4, h5, h6, h7, h8, h9, Bool.false_eq_true, if_false]
  rfl

/-- Witness for C9 at the unrecognized action `"DROP_TABLES"`. -/
theorem handler_unknown_action_witness :
    handler none 0 "n1" ⟨false, []⟩ { body := some [("action", Value.str "DROP_TABLES")] }
      = Except.ok ({ statusCode := 200, headers := corsHeaders, body := some "\x7b\x7d" },
          (⟨false, []⟩ : Db)) :=
  handler_unknown_action none 0 "n1" ⟨false, []⟩
    { body := some [("action", Value.str "DROP_TABLES")] } (by decide)
